import Mathlib

/-!
Verification of the vocabulary-quiz repository (src/vocab_test.py and
src/app.py) against its natural-language specification.

The embedding is shallow:
* a pandas DataFrame becomes a `DataFrame`: a list of column names plus a
  list of rows with optional (possibly-NaN) `word` and `meaning` cells;
* `random.sample` / `DataFrame.sample(..., replace=False)` /
  `random.shuffle` / `sample(frac=1.0)` become draw-without-replacement
  functions parameterised by an explicit stream of choices (`Rand`), so
  every randomised outcome of the Python code corresponds to some choice
  stream and every choice stream yields a possible outcome;
* a raised Python exception becomes `Except.error` carrying the exception
  class name and message (`PyError`).
-/

namespace Vocab

/-- One row of the table. `none` models a pandas NaN/missing cell. -/
structure Row where
  word : Option String
  meaning : Option String
deriving Repr, DecidableEq

/-- A pandas DataFrame, reduced to the parts the code reads: its column
names and the word/meaning cells of each row. -/
structure DataFrame where
  columns : List String
  rows : List Row
deriving Repr, DecidableEq

/-- A generated multiple-choice question, as built by
`generate_mcq_questions` in src/vocab_test.py. -/
structure Question where
  word : String
  correct : String
  options : List String
deriving Repr, DecidableEq

/-- A raised Python exception: class name plus message. -/
structure PyError where
  cls : String
  msg : String
deriving Repr, DecidableEq

/-- `df.dropna(subset=["word", "meaning"])`: keep exactly the rows whose
word and meaning cells are both present, as (word, meaning) pairs. -/
def dropnaWordMeaning (rows : List Row) : List (String × String) :=
  rows.filterMap fun r =>
    match r.word, r.meaning with
    | some w, some m => some (w, m)
    | _, _ => none

/-- Draw one element from `l` at position `k % l.length` (so every choice
number is valid), returning it together with the remaining list. -/
def pick (l : List α) (k : Nat) : Option (α × List α) :=
  match l with
  | [] => none
  | a :: as =>
    let i := k % (a :: as).length
    some ((a :: as).getD i a, (a :: as).eraseIdx i)

/-- Draw `n` elements without replacement, consuming one choice per draw.
Returns `none` exactly when `n` exceeds the population, which is the case
in which pandas `sample(n, replace=False)` raises `ValueError`. -/
def sampleSeq (ks : Nat → Nat) : Nat → List α → Option (List α)
  | 0, _ => some []
  | n + 1, l =>
    match pick l (ks 0) with
    | none => none
    | some (a, rest) => (sampleSeq (fun i => ks (i + 1)) n rest).map (a :: ·)

/-- `random.shuffle` / `sample(frac=1.0)`: a full-length draw without
replacement, i.e. a permutation selected by the choice stream. -/
def shuffleSeq (ks : Nat → Nat) (l : List α) : List α :=
  (sampleSeq ks l.length l).getD l

/-- `drop_duplicates(subset=["word"])`: keep the first row for each word,
where `seen` accumulates the words already kept. -/
def dropDuplicatesByWord : List (String × String) → List String → List (String × String)
  | [], _ => []
  | p :: ps, seen =>
    if p.1 ∈ seen then dropDuplicatesByWord ps seen
    else p :: dropDuplicatesByWord ps (p.1 :: seen)

/-- Choice streams for the three random draws performed by the generator:
the base-row sample/shuffle, the wrong-option sample of each question, and
the option shuffle of each question. -/
structure Rand where
  base : Nat → Nat
  wrong : Nat → Nat → Nat
  shuf : Nat → Nat → Nat

/-- The all-zeros choice stream (always draw the first remaining element). -/
def zeroRand : Rand :=
  { base := fun _ => 0, wrong := fun _ _ => 0, shuf := fun _ _ => 0 }

/-- A second, different choice stream. -/
def altRand : Rand :=
  { base := fun i => i + 1, wrong := fun i j => i + j, shuf := fun i j => i * j + 1 }

/-- Error raised when a required column is absent. -/
def errMissingCols : PyError :=
  { cls := "ValueError", msg := "DataFrame 必须包含 word 和 meaning 两列" }

/-- Error raised when no rows survive dropna. -/
def errEmptyTable : PyError :=
  { cls := "ValueError", msg := "词汇表为空" }

/-- Error raised when none of the requested words occurs in the table. -/
def errNoMatchingWords : PyError :=
  { cls := "ValueError", msg := "提供的 words 在 DataFrame 中找不到" }

/-- pandas error for `sample(n, replace=False)` with `n` larger than the
population. -/
def errSampleTooLarge : PyError :=
  { cls := "ValueError", msg := "Cannot take a larger sample than population when replace is False" }

/-- pandas error for `sample(n)` with negative `n`. -/
def errNegativeSample : PyError :=
  { cls := "ValueError", msg := "A negative number of rows requested" }

/-- The pool the wrong options of one question are sampled from: the
meanings of the rows whose word differs from `word`, falling back to the
whole meaning column when that pool is smaller than `n_options - 1`. -/
def questionPool (df : List (String × String)) (n_options : Nat) (word : String) : List String :=
  let other_meanings := (df.filter fun p => p.1 ≠ word).map fun p => p.2
  if (other_meanings.length : Int) < (n_options : Int) - 1 then df.map fun p => p.2
  else other_meanings

/-- Body of the per-word loop of `generate_mcq_questions`: build one
question for `row` against the cleaned table `df`. Mirrors the source: draw
`n_options - 1` wrong options without replacement from `questionPool`,
append the correct meaning and shuffle. -/
def buildQuestion (r : Rand) (df : List (String × String)) (n_options : Nat)
    (i : Nat) (row : String × String) : Except PyError Question :=
  let word := row.1
  let correct := row.2
  if (n_options : Int) - 1 < 0 then .error errNegativeSample
  else
    match sampleSeq (r.wrong i) (n_options - 1) (questionPool df n_options word) with
    | none => .error errSampleTooLarge
    | some wrongs =>
      let options := shuffleSeq (r.shuf i) (wrongs ++ [correct])
      .ok { word := word, correct := correct, options := options }

/-- The per-word loop of `generate_mcq_questions`, threading the question
index used to address the choice streams. -/
def buildQuestions (r : Rand) (df : List (String × String)) (n_options : Nat) :
    Nat → List (String × String) → Except PyError (List Question)
  | _, [] => .ok []
  | i, row :: rest =>
    match buildQuestion r df n_options i row with
    | .error e => .error e
    | .ok q => (buildQuestions r df n_options (i + 1) rest).map (q :: ·)

/-- `generate_mcq_questions(df, n_questions, n_options, words)` from
src/vocab_test.py. Validates the columns, drops rows with missing word or
meaning, selects the base rows (random sample of `min n_questions len` in
count mode; the deduplicated matching rows, shuffled, in explicit-word
mode), then builds one question per base row. -/
def generate_mcq_questions (r : Rand) (df0 : DataFrame)
    (n_questions : Nat := 10) (n_options : Nat := 4)
    (words : Option (List String) := none) : Except PyError (List Question) :=
  if "word" ∉ df0.columns ∨ "meaning" ∉ df0.columns then .error errMissingCols
  else
    let df := dropnaWordMeaning df0.rows
    if df.isEmpty then .error errEmptyTable
    else
      match words with
      | some ws =>
        let base0 := dropDuplicatesByWord (df.filter fun p => p.1 ∈ ws) []
        if base0.isEmpty then .error errNoMatchingWords
        else buildQuestions r df n_options 0 (shuffleSeq r.base base0)
      | none =>
        let nq := min n_questions df.length
        match sampleSeq r.base nq df with
        | none => .error errSampleTooLarge
        | some base => buildQuestions r df n_options 0 base

/-! ### src/app.py: dictionary lookup, translation and enrichment

The network-bound collaborators are embedded with the injected effect as a
function returning `Except String _` (an `Except.error` models a raised
Python exception: network error, timeout, JSON parse error, ...). The
dynamic-typing failure points of the parsing code (attribute access on a
non-dict, indexing a non-sequence) are modelled by `Except`-valued
accessors on a small JSON value type. -/

/-- A parsed JSON value as returned by `resp.json()`. -/
inductive Json where
  | null
  | jbool (b : Bool)
  | jnum (n : Int)
  | jstr (s : String)
  | jarr (xs : List Json)
  | jobj (fields : List (String × Json))

/-- Python truthiness of a JSON value (`if not x`). -/
def Json.falsy : Json → Bool
  | .null => true
  | .jbool b => !b
  | .jnum n => n == 0
  | .jstr s => s == ""
  | .jarr xs => xs.isEmpty
  | .jobj fs => fs.isEmpty

/-- `x.get(key, default)`: defaulting key lookup, raising (AttributeError)
when `x` is not a dict. -/
def pyDictGet (j : Json) (key : String) (default : Json) : Except String Json :=
  match j with
  | .jobj fs => .ok ((fs.lookup key).getD default)
  | _ => .error "AttributeError"

/-- `x[0]`: first element of a sequence, raising on an empty sequence or a
non-sequence. -/
def pyIndexZero : Json → Except String Json
  | .jarr (x :: _) => .ok x
  | .jarr [] => .error "IndexError"
  | .jstr s =>
    if s.isEmpty then .error "IndexError"
    else .ok (.jstr (String.singleton (s.get 0)))
  | _ => .error "TypeError"

/-- `x.strip()`, raising (AttributeError) when `x` is not a string. -/
def pyStrip : Json → Except String String
  | .jstr s => .ok s.trim
  | _ => .error "AttributeError"

/-- The observable behaviour of `requests.get`: either a raised exception
(timeout, connection error) or a response with a status code and the
outcome of `resp.json()`. -/
structure HttpResponse where
  status_code : Int
  json : Except String Json

/-- The try-block of `fetch_meaning_for_word` in src/app.py, before the
`except Exception` handler is applied. -/
def fetch_meaning_body (get : String → Except String HttpResponse)
    (word : String) : Except String String := do
  let resp ← get ("https://api.dictionaryapi.dev/api/v2/entries/en/" ++ word)
  if resp.status_code ≠ 200 then return ""
  let data ← resp.json
  match data with
  | .jarr (first :: _) =>
    let meanings ← pyDictGet first "meanings" (.jarr [])
    if meanings.falsy then return ""
    let m0 ← pyIndexZero meanings
    let defs ← pyDictGet m0 "definitions" (.jarr [])
    if defs.falsy then return ""
    let d0 ← pyIndexZero defs
    let definition ← pyDictGet d0 "definition" (.jstr "")
    pyStrip definition
  | _ => return ""

/-- `fetch_meaning_for_word(word)` from src/app.py: returns the empty
string for a falsy word and wraps the whole body in `except Exception`,
turning any raised exception into the empty string. -/
def fetch_meaning_for_word (get : String → Except String HttpResponse)
    (word : String) : Except String String :=
  if word = "" then .ok ""
  else
    match fetch_meaning_body get word with
    | .error _ => .ok ""
    | .ok s => .ok s

/-- The observable result of `translator.translate(text, dest="zh-cn")`. -/
structure TransResult where
  text : String
deriving Repr, DecidableEq

/-- `translate_to_zh(text)` from src/app.py: empty input gives the empty
string; a raised exception from the translator is caught and gives the
empty string; otherwise the stripped translation text is returned. -/
def translate_to_zh (tr : String → String → Except String TransResult)
    (text : String) : Except String String :=
  if text = "" then .ok ""
  else
    match tr text "zh-cn" with
    | .error _ => .ok ""
    | .ok result => .ok result.text.trim

/-- Error raised by `ensure_meanings` when the word column is absent. -/
def errMissingWordCol : PyError :=
  { cls := "ValueError", msg := "CSV 必须至少有一列为单词列，且列名为 word。" }

/-- The per-row body of `ensure_meanings`: re-fetch an English definition
for the word, fall back to the old meaning when the fetch returns empty,
translate the result, and append the translation in fullwidth parentheses
when it is non-empty. `fetch` and `translate` are the already-caught total
collaborators (`fetch_meaning_for_word` / `translate_to_zh` never raise). -/
def enrich_row (fetch : String → String) (translate : String → String)
    (r : Row) : String :=
  let word := (r.word.getD "nan").trim
  let old_meaning := (r.meaning.getD "").trim
  let new_en := fetch word
  let final_en := if new_en ≠ "" then new_en else old_meaning
  let zh := if final_en ≠ "" then translate final_en else ""
  if final_en ≠ "" ∧ zh ≠ "" then final_en ++ "（" ++ zh ++ "）" else final_en

/-- `ensure_meanings(df)` from src/app.py: requires a word column, creates
an all-empty meaning column when absent, then recomputes every row's
meaning with `enrich_row`. -/
def ensure_meanings (fetch : String → String) (translate : String → String)
    (df : DataFrame) : Except PyError DataFrame :=
  if "word" ∉ df.columns then .error errMissingWordCol
  else
    let df1 : DataFrame :=
      if "meaning" ∉ df.columns then
        { columns := df.columns ++ ["meaning"],
          rows := df.rows.map fun r => { word := r.word, meaning := some "" } }
      else df
    .ok { columns := df1.columns,
          rows := df1.rows.map fun r =>
            { word := r.word, meaning := some (enrich_row fetch translate r) } }

/-! ### Concrete tables and outputs used as witnesses and counterexamples -/

/-- The two-word table of the fallback scenario in the spec. -/
def dfTwoWords : DataFrame :=
  { columns := ["word", "meaning"],
    rows := [{ word := some "cat", meaning := some "a small domesticated feline" },
             { word := some "dog", meaning := some "a domesticated canine" }] }

/-- A two-word table in which both words carry the same meaning. -/
def dfSharedMeaning : DataFrame :=
  { columns := ["word", "meaning"],
    rows := [{ word := some "a", meaning := some "m" },
             { word := some "b", meaning := some "m" }] }

/-- A table lacking the meaning column. -/
def dfNoMeaningCol : DataFrame :=
  { columns := ["word"], rows := [{ word := some "cat", meaning := none }] }

/-- A table whose only row has a missing meaning, so cleaning empties it. -/
def dfAllMissing : DataFrame :=
  { columns := ["word", "meaning"], rows := [{ word := some "x", meaning := none }] }

/-- What `generate_mcq_questions zeroRand dfSharedMeaning 5 2 none` returns. -/
def qsShared : List Question :=
  [{ word := "a", correct := "m", options := ["m", "m"] },
   { word := "b", correct := "m", options := ["m", "m"] }]

/-- What `generate_mcq_questions zeroRand dfSharedMeaning 5 2 (some ["b", "zz"])` returns. -/
def qsSharedB : List Question :=
  [{ word := "b", correct := "m", options := ["m", "m"] }]

/-- A one-row table with a non-blank meaning, used against `ensure_meanings`. -/
def dfEnrich : DataFrame :=
  { columns := ["word", "meaning"],
    rows := [{ word := some "cat", meaning := some "feline" }] }

/-! ### Lemmas about the draw-without-replacement machinery -/

theorem perm_getD_cons_eraseIdx : ∀ (l : List α) (i : Nat), i < l.length → ∀ d : α,
    l.Perm (l.getD i d :: l.eraseIdx i)
  | a :: as, 0, _, d => by simp
  | a :: as, i + 1, h, d => by
    have hi : i < as.length := by simpa using Nat.lt_of_succ_lt_succ h
    have ih := perm_getD_cons_eraseIdx as i hi d
    simp only [List.getD_cons_succ, List.eraseIdx_cons_succ]
    exact (ih.cons a).trans (List.Perm.swap _ _ _)

theorem pick_of_ne_nil {l : List α} (h : l ≠ []) (k : Nat) :
    ∃ a rest, pick l k = some (a, rest) ∧ rest.length + 1 = l.length ∧ l.Perm (a :: rest) := by
  match l with
  | [] => exact absurd rfl h
  | b :: bs =>
    have hi : (k % (b :: bs).length) < (b :: bs).length :=
      Nat.mod_lt _ (by simp)
    refine ⟨_, _, rfl, ?_, perm_getD_cons_eraseIdx _ _ hi _⟩
    rw [List.length_eraseIdx, if_pos hi]
    simp

theorem sampleSeq_cons_eq {ks : Nat → Nat} {l : List α} {a : α} {rest : List α}
    (hp : pick l (ks 0) = some (a, rest)) (n : Nat) :
    sampleSeq ks (n + 1) l = (sampleSeq (fun i => ks (i + 1)) n rest).map (a :: ·) := by
  simp only [sampleSeq, hp]

theorem sampleSeq_length : ∀ (ks : Nat → Nat) (n : Nat) (l l2 : List α),
    sampleSeq ks n l = some l2 → l2.length = n
  | _, 0, _, _, h => by
    simp only [sampleSeq, Option.some.injEq] at h
    simp [← h]
  | ks, n + 1, l, l2, h => by
    match hp : pick l (ks 0) with
    | none =>
      simp only [sampleSeq, hp] at h
      exact Option.noConfusion h
    | some (a, rest) =>
      rw [sampleSeq_cons_eq hp] at h
      cases hs : sampleSeq (fun i => ks (i + 1)) n rest with
      | none => rw [hs] at h; cases h
      | some tail =>
        rw [hs] at h
        have h2 : a :: tail = l2 := by simpa using h
        subst h2
        simp [sampleSeq_length (fun i => ks (i + 1)) n rest tail hs]

theorem sampleSeq_isSome : ∀ (ks : Nat → Nat) (n : Nat) (l : List α),
    n ≤ l.length → (sampleSeq ks n l).isSome
  | _, 0, _, _ => by simp [sampleSeq]
  | ks, n + 1, l, h => by
    have hne : l ≠ [] := by
      intro he
      subst he
      simp at h
    obtain ⟨a, rest, hp, hlen, -⟩ := pick_of_ne_nil hne (ks 0)
    have hrest : n ≤ rest.length := by omega
    have ih := sampleSeq_isSome (fun i => ks (i + 1)) n rest hrest
    rw [sampleSeq_cons_eq hp]
    cases hs : sampleSeq (fun i => ks (i + 1)) n rest with
    | none => rw [hs] at ih; simp at ih
    | some tail => rfl

theorem sampleSeq_perm : ∀ (ks : Nat → Nat) (n : Nat) (l l2 : List α),
    n = l.length → sampleSeq ks n l = some l2 → l.Perm l2
  | _, 0, l, l2, hn, h => by
    have : l = [] := by
      cases l with
      | nil => rfl
      | cons a as => simp at hn
    subst this
    simp only [sampleSeq, Option.some.injEq] at h
    simp [← h]
  | ks, n + 1, l, l2, hn, h => by
    have hne : l ≠ [] := by
      intro he
      subst he
      simp at hn
    obtain ⟨a, rest, hp, hlen, hperm⟩ := pick_of_ne_nil hne (ks 0)
    rw [sampleSeq_cons_eq hp] at h
    cases hs : sampleSeq (fun i => ks (i + 1)) n rest with
    | none => rw [hs] at h; cases h
    | some tail =>
      rw [hs] at h
      have h2 : a :: tail = l2 := by simpa using h
      have ih := sampleSeq_perm (fun i => ks (i + 1)) n rest tail (by omega) hs
      exact h2 ▸ (hperm.trans (ih.cons a))

theorem shuffleSeq_perm (ks : Nat → Nat) (l : List α) : l.Perm (shuffleSeq ks l) := by
  unfold shuffleSeq
  cases hs : sampleSeq ks l.length l with
  | none => simp
  | some l2 => simpa using sampleSeq_perm ks l.length l l2 rfl hs

theorem shuffleSeq_length (ks : Nat → Nat) (l : List α) :
    (shuffleSeq ks l).length = l.length :=
  (shuffleSeq_perm ks l).length_eq.symm

theorem shuffleSeq_mem {a : α} {l : List α} (ks : Nat → Nat) (h : a ∈ l) :
    a ∈ shuffleSeq ks l :=
  (shuffleSeq_perm ks l).mem_iff.mp h

theorem shuffleSeq_singleton (ks : Nat → Nat) (a : α) : shuffleSeq ks [a] = [a] := by
  simp [shuffleSeq, sampleSeq, pick]

/-! ### Lemmas about question construction -/

theorem questionPool_length {df : List (String × String)} {k : Nat} {word : String}
    (h : k - 1 ≤ df.length) : k - 1 ≤ (questionPool df k word).length := by
  unfold questionPool
  by_cases hc :
      ((((df.filter fun p => p.1 ≠ word).map fun p => p.2).length : Int) < (k : Int) - 1)
  · rw [if_pos hc]
    simpa using h
  · rw [if_neg hc]
    omega

theorem buildQuestion_ok_eq {r : Rand} {df : List (String × String)} {k i : Nat}
    {row : String × String} {wrongs : List String}
    (hneg : ¬ ((k : Int) - 1 < 0))
    (hs : sampleSeq (r.wrong i) (k - 1) (questionPool df k row.1) = some wrongs) :
    buildQuestion r df k i row =
      .ok { word := row.1, correct := row.2,
            options := shuffleSeq (r.shuf i) (wrongs ++ [row.2]) } := by
  simp only [buildQuestion, if_neg hneg, hs]

theorem buildQuestion_err_eq {r : Rand} {df : List (String × String)} {k i : Nat}
    {row : String × String}
    (hneg : ¬ ((k : Int) - 1 < 0))
    (hs : sampleSeq (r.wrong i) (k - 1) (questionPool df k row.1) = none) :
    buildQuestion r df k i row = .error errSampleTooLarge := by
  simp only [buildQuestion, if_neg hneg, hs]

theorem buildQuestion_ok_props {r : Rand} {df : List (String × String)} {k i : Nat}
    {row : String × String} {q : Question}
    (h : buildQuestion r df k i row = .ok q) :
    q.word = row.1 ∧ q.correct = row.2 ∧ q.options.length = k ∧ q.correct ∈ q.options := by
  by_cases hneg : ((k : Int) - 1 < 0)
  · unfold buildQuestion at h
    rw [if_pos hneg] at h
    exact Except.noConfusion h
  · cases hs : sampleSeq (r.wrong i) (k - 1) (questionPool df k row.1) with
    | none =>
      rw [buildQuestion_err_eq hneg hs] at h
      exact Except.noConfusion h
    | some wrongs =>
      rw [buildQuestion_ok_eq hneg hs] at h
      have hq := Except.ok.inj h
      have hlen : wrongs.length = k - 1 := sampleSeq_length _ _ _ _ hs
      have hk : 1 ≤ k := by omega
      subst hq
      refine ⟨rfl, rfl, ?_, ?_⟩
      · rw [shuffleSeq_length]
        simp [hlen]
        omega
      · exact shuffleSeq_mem _ (by simp)

theorem buildQuestion_isOk {r : Rand} {df : List (String × String)} {k i : Nat}
    {row : String × String} (hk : 1 ≤ k) (hlen : k - 1 ≤ df.length) :
    ∃ q, buildQuestion r df k i row = .ok q := by
  have hneg : ¬ ((k : Int) - 1 < 0) := by omega
  have hpool : k - 1 ≤ (questionPool df k row.1).length := questionPool_length hlen
  have := sampleSeq_isSome (r.wrong i) (k - 1) (questionPool df k row.1) hpool
  cases hs : sampleSeq (r.wrong i) (k - 1) (questionPool df k row.1) with
  | none => rw [hs] at this; simp at this
  | some wrongs => exact ⟨_, buildQuestion_ok_eq hneg hs⟩

theorem buildQuestion_error_cls {r : Rand} {df : List (String × String)} {k i : Nat}
    {row : String × String} {e : PyError}
    (h : buildQuestion r df k i row = .error e) : e.cls = "ValueError" := by
  by_cases hneg : ((k : Int) - 1 < 0)
  · unfold buildQuestion at h
    rw [if_pos hneg] at h
    have := Except.error.inj h
    rw [← this]
    rfl
  · cases hs : sampleSeq (r.wrong i) (k - 1) (questionPool df k row.1) with
    | none =>
      rw [buildQuestion_err_eq hneg hs] at h
      have := Except.error.inj h
      rw [← this]
      rfl
    | some wrongs =>
      rw [buildQuestion_ok_eq hneg hs] at h
      exact Except.noConfusion h

theorem buildQuestions_ok_props {r : Rand} {df : List (String × String)} {k : Nat} :
    ∀ (i : Nat) (rows : List (String × String)) (qs : List Question),
    buildQuestions r df k i rows = .ok qs →
    qs.length = rows.length ∧ ∀ q ∈ qs, q.options.length = k ∧ q.correct ∈ q.options
  | _, [], qs, h => by
    simp only [buildQuestions, Except.ok.injEq] at h
    subst h
    simp
  | i, row :: rest, qs, h => by
    simp only [buildQuestions] at h
    cases hb : buildQuestion r df k i row with
    | error e => rw [hb] at h; exact Except.noConfusion h
    | ok q =>
      rw [hb] at h
      cases ht : buildQuestions r df k (i + 1) rest with
      | error e => rw [ht] at h; exact Except.noConfusion h
      | ok tail =>
        rw [ht] at h
        have h2 : q :: tail = qs := by
          simpa [Except.map] using h
        subst h2
        obtain ⟨hl, hprops⟩ := buildQuestions_ok_props (i + 1) rest tail ht
        obtain ⟨-, -, hqlen, hqmem⟩ := buildQuestion_ok_props hb
        refine ⟨by simp [hl], ?_⟩
        intro p hp
        rcases List.mem_cons.mp hp with hpq | hpt
        · subst hpq
          exact ⟨hqlen, hqmem⟩
        · exact hprops p hpt

theorem buildQuestions_isOk {r : Rand} {df : List (String × String)} {k : Nat}
    (hk : 1 ≤ k) (hlen : k - 1 ≤ df.length) :
    ∀ (i : Nat) (rows : List (String × String)),
    ∃ qs, buildQuestions r df k i rows = .ok qs
  | _, [] => ⟨[], rfl⟩
  | i, row :: rest => by
    obtain ⟨q, hq⟩ := @buildQuestion_isOk r df k i row hk hlen
    obtain ⟨tail, ht⟩ := @buildQuestions_isOk r df k hk hlen (i + 1) rest
    exact ⟨q :: tail, by simp [buildQuestions, hq, ht, Except.map]⟩

theorem buildQuestions_error_cls {r : Rand} {df : List (String × String)} {k : Nat} :
    ∀ (i : Nat) (rows : List (String × String)) (e : PyError),
    buildQuestions r df k i rows = .error e → e.cls = "ValueError"
  | _, [], e, h => by
    simp only [buildQuestions] at h
    exact Except.noConfusion h
  | i, row :: rest, e, h => by
    simp only [buildQuestions] at h
    cases hb : buildQuestion r df k i row with
    | error e2 =>
      rw [hb] at h
      have := Except.error.inj h
      subst this
      exact buildQuestion_error_cls hb
    | ok q =>
      rw [hb] at h
      cases ht : buildQuestions r df k (i + 1) rest with
      | error e2 =>
        rw [ht] at h
        have h2 : e2 = e := by
          simpa [Except.map] using h
        subst h2
        exact buildQuestions_error_cls (i + 1) rest e2 ht
      | ok tail =>
        rw [ht] at h
        simp [Except.map] at h

/-! ### Lemmas about `dropDuplicatesByWord` -/

theorem card_insert_erase (u : Finset String) (a : String) :
    (insert a u).card = (u.erase a).card + 1 := by
  by_cases ha : a ∈ u
  · rw [Finset.insert_eq_self.mpr ha, ← Finset.card_erase_add_one ha]
  · rw [Finset.card_insert_of_not_mem ha, Finset.erase_eq_of_not_mem ha]

theorem dropDuplicatesByWord_length :
    ∀ (l : List (String × String)) (seen : List String),
    (dropDuplicatesByWord l seen).length =
      ((l.map Prod.fst).toFinset \ seen.toFinset).card
  | [], seen => by simp [dropDuplicatesByWord]
  | p :: ps, seen => by
    by_cases hp : p.1 ∈ seen
    · rw [dropDuplicatesByWord, if_pos hp, dropDuplicatesByWord_length ps seen]
      rw [List.map_cons, List.toFinset_cons,
        Finset.insert_sdiff_of_mem _ (List.mem_toFinset.mpr hp)]
    · rw [dropDuplicatesByWord, if_neg hp]
      rw [List.length_cons, dropDuplicatesByWord_length ps (p.1 :: seen)]
      rw [List.map_cons, List.toFinset_cons, List.toFinset_cons,
        Finset.sdiff_insert,
        Finset.insert_sdiff_of_not_mem _ (fun hc => hp (List.mem_toFinset.mp hc)),
        card_insert_erase]

/-! ### Equation lemmas for `generate_mcq_questions` -/

theorem generate_missing_cols_eq {r : Rand} {df0 : DataFrame} {n k : Nat}
    {ws : Option (List String)}
    (h : "word" ∉ df0.columns ∨ "meaning" ∉ df0.columns) :
    generate_mcq_questions r df0 n k ws = .error errMissingCols := by
  simp only [generate_mcq_questions, if_pos h]

theorem generate_empty_eq {r : Rand} {df0 : DataFrame} {n k : Nat}
    {ws : Option (List String)}
    (hw : "word" ∈ df0.columns) (hm : "meaning" ∈ df0.columns)
    (he : dropnaWordMeaning df0.rows = []) :
    generate_mcq_questions r df0 n k ws = .error errEmptyTable := by
  have hcols : ¬ ("word" ∉ df0.columns ∨ "meaning" ∉ df0.columns) := by
    simp [hw, hm]
  simp only [generate_mcq_questions, if_neg hcols, he]
  rfl

theorem generate_count_eq {r : Rand} {df0 : DataFrame} {n k : Nat}
    (hw : "word" ∈ df0.columns) (hm : "meaning" ∈ df0.columns)
    (hne : dropnaWordMeaning df0.rows ≠ []) :
    ∃ base,
      sampleSeq r.base (min n (dropnaWordMeaning df0.rows).length)
          (dropnaWordMeaning df0.rows) = some base ∧
      base.length = min n (dropnaWordMeaning df0.rows).length ∧
      generate_mcq_questions r df0 n k none =
        buildQuestions r (dropnaWordMeaning df0.rows) k 0 base := by
  have hcols : ¬ ("word" ∉ df0.columns ∨ "meaning" ∉ df0.columns) := by
    simp [hw, hm]
  have hsome := sampleSeq_isSome r.base (min n (dropnaWordMeaning df0.rows).length)
    (dropnaWordMeaning df0.rows) (Nat.min_le_right _ _)
  cases hs : sampleSeq r.base (min n (dropnaWordMeaning df0.rows).length)
      (dropnaWordMeaning df0.rows) with
  | none => rw [hs] at hsome; simp at hsome
  | some base =>
    refine ⟨base, rfl, sampleSeq_length _ _ _ _ hs, ?_⟩
    simp only [generate_mcq_questions, if_neg hcols,
      List.isEmpty_iff, if_neg hne, hs]

theorem generate_nomatch_eq {r : Rand} {df0 : DataFrame} {n k : Nat}
    {ws : List String}
    (hw : "word" ∈ df0.columns) (hm : "meaning" ∈ df0.columns)
    (hne : dropnaWordMeaning df0.rows ≠ [])
    (hb : dropDuplicatesByWord
        ((dropnaWordMeaning df0.rows).filter fun p => p.1 ∈ ws) [] = []) :
    generate_mcq_questions r df0 n k (some ws) = .error errNoMatchingWords := by
  have hcols : ¬ ("word" ∉ df0.columns ∨ "meaning" ∉ df0.columns) := by
    simp [hw, hm]
  simp only [generate_mcq_questions, if_neg hcols, List.isEmpty_iff, if_neg hne, hb]
  rfl

theorem generate_explicit_eq {r : Rand} {df0 : DataFrame} {n k : Nat}
    {ws : List String}
    (hw : "word" ∈ df0.columns) (hm : "meaning" ∈ df0.columns)
    (hne : dropnaWordMeaning df0.rows ≠ [])
    (hb : dropDuplicatesByWord
        ((dropnaWordMeaning df0.rows).filter fun p => p.1 ∈ ws) [] ≠ []) :
    generate_mcq_questions r df0 n k (some ws) =
      buildQuestions r (dropnaWordMeaning df0.rows) k 0
        (shuffleSeq r.base
          (dropDuplicatesByWord
            ((dropnaWordMeaning df0.rows).filter fun p => p.1 ∈ ws) [])) := by
  have hcols : ¬ ("word" ∉ df0.columns ∨ "meaning" ∉ df0.columns) := by
    simp [hw, hm]
  simp only [generate_mcq_questions, if_neg hcols, List.isEmpty_iff, if_neg hne, if_neg hb]

/-- Inversion: a successful call went through `buildQuestions` on some base
row list whose length is `min n_questions len` in count mode and the number
of distinct matched words in explicit-word mode. -/
theorem generate_ok_inv {r : Rand} {df0 : DataFrame} {n k : Nat}
    {ws : Option (List String)} {qs : List Question}
    (h : generate_mcq_questions r df0 n k ws = .ok qs) :
    ∃ base, buildQuestions r (dropnaWordMeaning df0.rows) k 0 base = .ok qs ∧
      (ws = none → base.length = min n (dropnaWordMeaning df0.rows).length) ∧
      (∀ w, ws = some w → base.length =
        (((dropnaWordMeaning df0.rows).filter fun p => p.1 ∈ w).map Prod.fst).toFinset.card) := by
  by_cases hw : "word" ∈ df0.columns
  case neg =>
    rw [generate_missing_cols_eq (Or.inl hw)] at h
    exact Except.noConfusion h
  by_cases hm : "meaning" ∈ df0.columns
  case neg =>
    rw [generate_missing_cols_eq (Or.inr hm)] at h
    exact Except.noConfusion h
  by_cases hne : dropnaWordMeaning df0.rows = []
  case pos =>
    rw [generate_empty_eq hw hm hne] at h
    exact Except.noConfusion h
  cases ws with
  | none =>
    obtain ⟨base, -, hblen, heq⟩ := generate_count_eq (r := r) (n := n) (k := k) hw hm hne
    rw [heq] at h
    exact ⟨base, h, fun _ => hblen, fun w hww => Option.noConfusion hww⟩
  | some w =>
    by_cases hb : dropDuplicatesByWord
        ((dropnaWordMeaning df0.rows).filter fun p => p.1 ∈ w) [] = []
    case pos =>
      rw [generate_nomatch_eq hw hm hne hb] at h
      exact Except.noConfusion h
    case neg =>
      rw [generate_explicit_eq hw hm hne hb] at h
      refine ⟨_, h, fun hc => Option.noConfusion hc, fun w2 hww => ?_⟩
      have hww2 : w2 = w := (Option.some.inj hww).symm
      subst hww2
      rw [shuffleSeq_length, dropDuplicatesByWord_length]
      simp

/-- With `n_options = 1` every question is built as its word plus the
one-element option list holding only the correct meaning. -/
theorem buildQuestion_one {r : Rand} {df : List (String × String)} {i : Nat}
    {row : String × String} :
    buildQuestion r df 1 i row =
      .ok { word := row.1, correct := row.2, options := [row.2] } := by
  have hneg : ¬ ((1 : Int) - 1 < 0) := by omega
  have hs : sampleSeq (r.wrong i) (1 - 1) (questionPool df 1 row.1) = some [] := rfl
  rw [buildQuestion_ok_eq hneg hs]
  rw [List.nil_append, shuffleSeq_singleton]

theorem buildQuestions_one {r : Rand} {df : List (String × String)} :
    ∀ (i : Nat) (rows : List (String × String)),
    buildQuestions r df 1 i rows =
      .ok (rows.map fun p => { word := p.1, correct := p.2, options := [p.2] })
  | _, [] => rfl
  | i, row :: rest => by
    rw [buildQuestions, buildQuestion_one, buildQuestions_one (i + 1) rest]
    rfl

/-! ### The claims -/

/-- C1: on the valid two-word table with `n_options = 4`, the wrong-meaning
pool is insufficient, so the fallback pool is the full meaning column (both
meanings); the claim says the call then raises no exception, but the code
still samples 3 wrong options without replacement from a 2-element pool and
raises the pandas ValueError instead of returning questions. -/
theorem claim_C1 :
    questionPool (dropnaWordMeaning dfTwoWords.rows) 4 "cat" =
      ["a small domesticated feline", "a domesticated canine"] ∧
    generate_mcq_questions zeroRand dfTwoWords 2 4 none = .error errSampleTooLarge :=
  ⟨rfl, rfl⟩

/-- C2 counterexample: on a table where two words share one meaning, a
returned question's options contain the value of `correct` twice, so the
options do not contain `correct` exactly once by value. -/
theorem claim_C2_counterexample :
    ∃ qs q, generate_mcq_questions zeroRand dfSharedMeaning 2 2 none = .ok qs ∧
      q ∈ qs ∧ q.options.count q.correct ≠ 1 :=
  ⟨qsShared, { word := "a", correct := "m", options := ["m", "m"] },
    rfl, by simp [qsShared], by decide⟩

/-- C2 (amended): for every Question returned by generate, the options list
has length `n_options` and contains the value of `correct` at least once
(exactly one option position carries the designated correct answer, but a
drawn wrong option may equal `correct` by value). -/
theorem claim_C2 : ∀ (r : Rand) (df0 : DataFrame) (n k : Nat)
    (ws : Option (List String)) (qs : List Question),
    generate_mcq_questions r df0 n k ws = .ok qs →
    ∀ q ∈ qs, q.options.length = k ∧ q.correct ∈ q.options := by
  intro r df0 n k ws qs h
  obtain ⟨base, hbq, -, -⟩ := generate_ok_inv h
  exact (buildQuestions_ok_props 0 _ _ hbq).2

/-- C2 witness: the amended statement evaluated on the first question of
the shared-meaning table. -/
theorem claim_C2_witness :
    ({ word := "a", correct := "m", options := ["m", "m"] } : Question).options.length = 2 ∧
    ({ word := "a", correct := "m", options := ["m", "m"] } : Question).correct ∈
      ({ word := "a", correct := "m", options := ["m", "m"] } : Question).options :=
  claim_C2 zeroRand dfSharedMeaning 2 2 none qsShared rfl
    { word := "a", correct := "m", options := ["m", "m"] } (by simp [qsShared])

/-- C3: generate fails synchronously, without retrying, when a required
column is missing (the InvalidTableError case), when no rows survive
cleaning (the EmptyTableError case), and, in explicit-word mode, when no
cleaned word occurs in the requested set (the NoMatchingWordsError case). -/
theorem claim_C3 : ∀ (r : Rand) (df0 : DataFrame) (n k : Nat)
    (wopt : Option (List String)) (ws : List String),
    ("word" ∉ df0.columns ∨ "meaning" ∉ df0.columns →
      generate_mcq_questions r df0 n k wopt = .error errMissingCols) ∧
    ("word" ∈ df0.columns → "meaning" ∈ df0.columns →
      dropnaWordMeaning df0.rows = [] →
      generate_mcq_questions r df0 n k wopt = .error errEmptyTable) ∧
    ("word" ∈ df0.columns → "meaning" ∈ df0.columns →
      dropnaWordMeaning df0.rows ≠ [] →
      (∀ p ∈ dropnaWordMeaning df0.rows, p.1 ∉ ws) →
      generate_mcq_questions r df0 n k (some ws) = .error errNoMatchingWords) := by
  intro r df0 n k wopt ws
  refine ⟨generate_missing_cols_eq, generate_empty_eq, ?_⟩
  intro hw hm hne hdisj
  have hfil : (dropnaWordMeaning df0.rows).filter (fun p => p.1 ∈ ws) = [] := by
    rw [List.filter_eq_nil_iff]
    intro p hp
    simpa using hdisj p hp
  exact generate_nomatch_eq hw hm hne (by rw [hfil]; rfl)

/-- C3 witness: the three failure cases evaluated on concrete tables. -/
theorem claim_C3_witness :
    generate_mcq_questions zeroRand dfNoMeaningCol 1 4 none = .error errMissingCols ∧
    generate_mcq_questions zeroRand dfAllMissing 1 4 none = .error errEmptyTable ∧
    generate_mcq_questions zeroRand dfTwoWords 1 4 (some ["zz"]) = .error errNoMatchingWords :=
  ⟨(claim_C3 zeroRand dfNoMeaningCol 1 4 none []).1 (by right; decide),
   (claim_C3 zeroRand dfAllMissing 1 4 none []).2.1 (by decide) (by decide) rfl,
   (claim_C3 zeroRand dfTwoWords 1 4 none ["zz"]).2.2 (by decide) (by decide)
     (by decide) (by decide)⟩

/-- C9: every error generate returns carries exception class ValueError —
in particular the three specified failure kinds all do — and the three
kinds are distinguishable only by their message text. -/
theorem claim_C9 : ∀ (r : Rand) (df0 : DataFrame) (n k : Nat)
    (ws : Option (List String)) (e : PyError),
    (generate_mcq_questions r df0 n k ws = .error e → e.cls = "ValueError") ∧
    errMissingCols.cls = "ValueError" ∧ errEmptyTable.cls = "ValueError" ∧
    errNoMatchingWords.cls = "ValueError" ∧
    errMissingCols.msg ≠ errEmptyTable.msg ∧
    errMissingCols.msg ≠ errNoMatchingWords.msg ∧
    errEmptyTable.msg ≠ errNoMatchingWords.msg := by
  intro r df0 n k ws e
  refine ⟨?_, rfl, rfl, rfl, by decide, by decide, by decide⟩
  intro h
  by_cases hw : "word" ∈ df0.columns
  case neg =>
    rw [generate_missing_cols_eq (Or.inl hw)] at h
    rw [← Except.error.inj h]
    rfl
  by_cases hm : "meaning" ∈ df0.columns
  case neg =>
    rw [generate_missing_cols_eq (Or.inr hm)] at h
    rw [← Except.error.inj h]
    rfl
  by_cases hne : dropnaWordMeaning df0.rows = []
  case pos =>
    rw [generate_empty_eq hw hm hne] at h
    rw [← Except.error.inj h]
    rfl
  cases ws with
  | none =>
    obtain ⟨base, -, -, heq⟩ := generate_count_eq (r := r) (n := n) (k := k) hw hm hne
    rw [heq] at h
    exact buildQuestions_error_cls 0 base e h
  | some w =>
    by_cases hb : dropDuplicatesByWord
        ((dropnaWordMeaning df0.rows).filter fun p => p.1 ∈ w) [] = []
    case pos =>
      rw [generate_nomatch_eq hw hm hne hb] at h
      rw [← Except.error.inj h]
      rfl
    case neg =>
      rw [generate_explicit_eq hw hm hne hb] at h
      exact buildQuestions_error_cls 0 _ e h

/-- C9 witness: a concrete failing call, via the theorem. -/
theorem claim_C9_witness : errMissingCols.cls = "ValueError" :=
  (claim_C9 zeroRand dfNoMeaningCol 1 4 none errMissingCols).1 rfl

/-- C10: generate does not reject `n_options = 1`: on any table with a
non-empty cleaned row set it succeeds in count mode, and every question's
options list is exactly the one-element list holding the correct meaning. -/
theorem claim_C10 : ∀ (r : Rand) (df0 : DataFrame) (n : Nat),
    "word" ∈ df0.columns → "meaning" ∈ df0.columns →
    dropnaWordMeaning df0.rows ≠ [] →
    ∃ qs, generate_mcq_questions r df0 n 1 none = .ok qs ∧
      qs.length = min n (dropnaWordMeaning df0.rows).length ∧
      ∀ q ∈ qs, q.options = [q.correct] := by
  intro r df0 n hw hm hne
  obtain ⟨base, -, hblen, heq⟩ := generate_count_eq (r := r) (n := n) (k := 1) hw hm hne
  refine ⟨_, by rw [heq, buildQuestions_one], ?_, ?_⟩
  · simp [hblen]
  · intro q hq
    simp only [List.mem_map] at hq
    obtain ⟨p, -, hp⟩ := hq
    rw [← hp]

/-- C10 witness: `n_options = 1` on the two-word table succeeds with
singleton option lists. -/
theorem claim_C10_witness :
    generate_mcq_questions zeroRand dfTwoWords 2 1 none =
      .ok [{ word := "cat", correct := "a small domesticated feline",
             options := ["a small domesticated feline"] },
           { word := "dog", correct := "a domesticated canine",
             options := ["a domesticated canine"] }] := by
  obtain ⟨qs, -, -, -⟩ := claim_C10 zeroRand dfTwoWords 2 (by decide) (by decide) (by decide)
  exact rfl

/-- C4: when the cleaned rows hold at least `n_options` distinct meanings
(and `n_options ≥ 1`), generation succeeds and every returned Question has
exactly `n_options` options containing its `correct` value at least once. -/
theorem claim_C4 : ∀ (r : Rand) (df0 : DataFrame) (n k : Nat),
    "word" ∈ df0.columns → "meaning" ∈ df0.columns → 1 ≤ k →
    k ≤ ((dropnaWordMeaning df0.rows).map Prod.snd).dedup.length →
    ∃ qs, generate_mcq_questions r df0 n k none = .ok qs ∧
      ∀ q ∈ qs, q.options.length = k ∧ q.correct ∈ q.options := by
  intro r df0 n k hw hm hk hd
  have h1 := (List.dedup_sublist ((dropnaWordMeaning df0.rows).map Prod.snd)).length_le
  rw [List.length_map] at h1
  have hne : dropnaWordMeaning df0.rows ≠ [] :=
    List.ne_nil_of_length_pos (by omega)
  obtain ⟨base, -, -, heq⟩ := generate_count_eq (r := r) (n := n) (k := k) hw hm hne
  obtain ⟨qs, hqs⟩ :=
    @buildQuestions_isOk r (dropnaWordMeaning df0.rows) k hk (by omega) 0 base
  exact ⟨qs, by rw [heq, hqs], (buildQuestions_ok_props 0 _ _ hqs).2⟩

/-- C4 witness: the shared-meaning table has 1 distinct meaning, enough for
one option; generation succeeds with one-option questions. -/
theorem claim_C4_witness :
    generate_mcq_questions zeroRand dfSharedMeaning 3 1 none =
      .ok [{ word := "a", correct := "m", options := ["m"] },
           { word := "b", correct := "m", options := ["m"] }] := by
  obtain ⟨qs, -, -⟩ :=
    claim_C4 zeroRand dfSharedMeaning 3 1 (by decide) (by decide) (by decide) (by decide)
  exact rfl

/-- C5: a successful call returns `min n_questions (cleaned length)`
questions in count mode, and in explicit-word mode as many questions as
there are distinct cleaned words lying in the requested set. -/
theorem claim_C5 : ∀ (r : Rand) (df0 : DataFrame) (n k : Nat)
    (ws : List String) (qs qs2 : List Question),
    (generate_mcq_questions r df0 n k none = .ok qs →
      qs.length = min n (dropnaWordMeaning df0.rows).length) ∧
    (generate_mcq_questions r df0 n k (some ws) = .ok qs2 →
      qs2.length =
        (((dropnaWordMeaning df0.rows).filter fun p => p.1 ∈ ws).map
          Prod.fst).toFinset.card) := by
  intro r df0 n k ws qs qs2
  constructor
  · intro h
    obtain ⟨base, hbq, hnone, -⟩ := generate_ok_inv h
    rw [(buildQuestions_ok_props 0 _ _ hbq).1, hnone rfl]
  · intro h
    obtain ⟨base, hbq, -, hsome⟩ := generate_ok_inv h
    rw [(buildQuestions_ok_props 0 _ _ hbq).1, hsome ws rfl]

/-- C5 witness: both modes on the shared-meaning table: count mode clamps
5 to 2 rows; explicit mode matches the one distinct word "b". -/
theorem claim_C5_witness :
    (qsShared.length = min 5 (dropnaWordMeaning dfSharedMeaning.rows).length) ∧
    (qsSharedB.length =
      (((dropnaWordMeaning dfSharedMeaning.rows).filter
        fun p => p.1 ∈ ["b", "zz"]).map Prod.fst).toFinset.card) :=
  ⟨(claim_C5 zeroRand dfSharedMeaning 5 2 ["b", "zz"] qsShared qsSharedB).1 rfl,
   (claim_C5 zeroRand dfSharedMeaning 5 2 ["b", "zz"] qsShared qsSharedB).2 rfl⟩

/-- C6: the generator is a pure function of the table and the drawn
randomness — the embedding passes the table by value and the Python code
performs no in-place frame operation — so two successive count-mode calls
on the same table with the same count both succeed and return question
lists of identical length and per-question shape, for any two random choice
streams. -/
theorem claim_C6 : ∀ (df0 : DataFrame) (n k : Nat) (r1 r2 : Rand),
    "word" ∈ df0.columns → "meaning" ∈ df0.columns →
    dropnaWordMeaning df0.rows ≠ [] → 1 ≤ k →
    k - 1 ≤ (dropnaWordMeaning df0.rows).length →
    ∃ qs1 qs2,
      generate_mcq_questions r1 df0 n k none = .ok qs1 ∧
      generate_mcq_questions r2 df0 n k none = .ok qs2 ∧
      qs1.length = qs2.length ∧
      (∀ q ∈ qs1, q.options.length = k) ∧ (∀ q ∈ qs2, q.options.length = k) := by
  intro df0 n k r1 r2 hw hm hne hk hlen
  obtain ⟨b1, -, hb1, he1⟩ := generate_count_eq (r := r1) (n := n) (k := k) hw hm hne
  obtain ⟨b2, -, hb2, he2⟩ := generate_count_eq (r := r2) (n := n) (k := k) hw hm hne
  obtain ⟨qs1, h1⟩ :=
    @buildQuestions_isOk r1 (dropnaWordMeaning df0.rows) k hk hlen 0 b1
  obtain ⟨qs2, h2⟩ :=
    @buildQuestions_isOk r2 (dropnaWordMeaning df0.rows) k hk hlen 0 b2
  have p1 := buildQuestions_ok_props 0 _ _ h1
  have p2 := buildQuestions_ok_props 0 _ _ h2
  refine ⟨qs1, qs2, by rw [he1, h1], by rw [he2, h2], ?_,
    fun q hq => (p1.2 q hq).1, fun q hq => (p2.2 q hq).1⟩
  rw [p1.1, p2.1, hb1, hb2]

/-- C6 witness: two calls with different choice streams on the concrete
two-word table both succeed, with two questions of two options each. -/
theorem claim_C6_witness :
    generate_mcq_questions zeroRand dfTwoWords 2 2 none =
      .ok [{ word := "cat", correct := "a small domesticated feline",
             options := ["a domesticated canine", "a small domesticated feline"] },
           { word := "dog", correct := "a domesticated canine",
             options := ["a small domesticated feline", "a domesticated canine"] }] ∧
    generate_mcq_questions altRand dfTwoWords 2 2 none =
      .ok [{ word := "dog", correct := "a domesticated canine",
             options := ["a domesticated canine", "a small domesticated feline"] },
           { word := "cat", correct := "a small domesticated feline",
             options := ["a small domesticated feline", "a domesticated canine"] }] := by
  obtain ⟨qs1, qs2, -, -, -, -, -⟩ := claim_C6 dfTwoWords 2 2 zeroRand altRand
    (by decide) (by decide) (by decide) (by decide) (by decide)
  exact ⟨rfl, rfl⟩

/-- C7 counterexample: a row whose meaning is the non-blank "feline" does
not keep that meaning: a successful lookup overwrites it even though it was
not absent or blank. -/
theorem claim_C7_counterexample :
    ensure_meanings (fun _ => "a small cat") (fun _ => "") dfEnrich =
      .ok { columns := ["word", "meaning"],
            rows := [{ word := some "cat", meaning := some "a small cat" }] } ∧
    some "a small cat" ≠ dfEnrich.rows.head?.bind Row.meaning :=
  ⟨rfl, by decide⟩

/-- C7 (amended): enrichment recomputes every row's meaning regardless of
whether the old meaning is blank: it overwrites the meaning whenever the
lookup returns non-empty and appends the translation in fullwidth
parentheses whenever that succeeds; a row keeps (the trimmed form of) its
original meaning only when both the lookup for its word and the translation
of that meaning return the empty string. -/
theorem claim_C7 : ∀ (fetch translate : String → String) (df : DataFrame)
    (r : Row) (m : String),
    "word" ∈ df.columns → "meaning" ∈ df.columns →
    (ensure_meanings fetch translate df =
      .ok { columns := df.columns,
            rows := df.rows.map fun r2 =>
              { word := r2.word, meaning := some (enrich_row fetch translate r2) } }) ∧
    (r.meaning = some m → fetch ((r.word.getD "nan").trim) = "" →
      translate m.trim = "" → enrich_row fetch translate r = m.trim) := by
  intro fetch translate df r m hw hm
  constructor
  · have hw2 : ¬ ("word" ∉ df.columns) := by simpa using hw
    have hm2 : ¬ ("meaning" ∉ df.columns) := by simpa using hm
    simp only [ensure_meanings, if_neg hw2, if_neg hm2]
  · intro hmean hf ht
    simp [enrich_row, hmean, hf, ht]

/-- C7 witness: with both collaborators failing, the row keeps its trimmed
original meaning "feline". -/
theorem claim_C7_witness :
    (ensure_meanings (fun _ => "") (fun _ => "") dfEnrich =
      .ok { columns := dfEnrich.columns,
            rows := dfEnrich.rows.map fun r2 =>
              { word := r2.word,
                meaning := some (enrich_row (fun _ => "") (fun _ => "") r2) } }) ∧
    enrich_row (fun _ => "") (fun _ => "")
      { word := some "cat", meaning := some "feline" } = "feline".trim :=
  ⟨(claim_C7 (fun _ => "") (fun _ => "") dfEnrich
      { word := some "cat", meaning := some "feline" } "feline"
      (by decide) (by decide)).1,
   (claim_C7 (fun _ => "") (fun _ => "") dfEnrich
      { word := some "cat", meaning := some "feline" } "feline"
      (by decide) (by decide)).2 rfl rfl rfl⟩

/-- C8: the lookup and translation collaborators never let an exception
propagate: each always returns normally, and on empty input, on any raised
exception inside the lookup body (network, timeout, HTTP-status handling,
JSON parsing), or on a raised translator exception, the result is the
empty string. -/
theorem claim_C8 : ∀ (get : String → Except String HttpResponse)
    (tr : String → String → Except String TransResult)
    (word text e1 e2 : String),
    (fetch_meaning_for_word get word).isOk = true ∧
    (translate_to_zh tr text).isOk = true ∧
    (word = "" → fetch_meaning_for_word get word = .ok "") ∧
    (text = "" → translate_to_zh tr text = .ok "") ∧
    (fetch_meaning_body get word = .error e1 →
      fetch_meaning_for_word get word = .ok "") ∧
    (tr text "zh-cn" = .error e2 → translate_to_zh tr text = .ok "") := by
  intro get tr word text e1 e2
  refine ⟨?_, ?_, ?_, ?_, ?_, ?_⟩
  · unfold fetch_meaning_for_word
    by_cases hword : word = ""
    · rw [if_pos hword]; rfl
    · rw [if_neg hword]
      cases fetch_meaning_body get word with
      | error e => rfl
      | ok s => rfl
  · unfold translate_to_zh
    by_cases htext : text = ""
    · rw [if_pos htext]; rfl
    · rw [if_neg htext]
      cases tr text "zh-cn" with
      | error e => rfl
      | ok result => rfl
  · intro hword
    unfold fetch_meaning_for_word
    rw [if_pos hword]
  · intro htext
    unfold translate_to_zh
    rw [if_pos htext]
  · intro hbody
    unfold fetch_meaning_for_word
    by_cases hword : word = ""
    · rw [if_pos hword]
    · rw [if_neg hword, hbody]
  · intro htr
    unfold translate_to_zh
    by_cases htext : text = ""
    · rw [if_pos htext]
    · rw [if_neg htext, htr]

/-- C8 witness: a lookup whose network call raises and a translator that
raises, on empty inputs, with every hypothesis discharged concretely. -/
theorem claim_C8_witness :
    (fetch_meaning_for_word (fun _ => .error "Timeout") "").isOk = true ∧
    (translate_to_zh (fun _ _ => .error "NetworkError") "").isOk = true ∧
    fetch_meaning_for_word (fun _ => .error "Timeout") "" = .ok "" ∧
    translate_to_zh (fun _ _ => .error "NetworkError") "" = .ok "" ∧
    fetch_meaning_for_word (fun _ => .error "Timeout") "" = .ok "" ∧
    translate_to_zh (fun _ _ => .error "NetworkError") "" = .ok "" := by
  have h := claim_C8 (fun _ => .error "Timeout") (fun _ _ => .error "NetworkError")
    "" "" "Timeout" "NetworkError"
  exact ⟨h.1, h.2.1, h.2.2.1 rfl, h.2.2.2.1 rfl, h.2.2.2.2.1 rfl, h.2.2.2.2.2 rfl⟩

end Vocab
